import Mathlib

/-!
Verification of the annotation engine of the AI-Image-Gallery backend
(`backend/main.py`) against its design specification.

The Python source is shallowly embedded: pure helpers become Lean
functions on `List Char` / `String`; network and image I/O is abstracted
into explicit inputs (`Option` for downloads that can fail, `Except` for
adapter calls that can raise); the in-memory cache becomes an explicit
association list threaded through the orchestrator.
-/

/-! ## Text tag extraction (`extract_tags_from_text`, main.py lines 690-696) -/

/-- `str.lower()` on the character list (ASCII-adequate for the inputs used). -/
def pyLower (s : List Char) : List Char := s.map Char.toLower

/-- `.replace(",", " ").replace(".", " ")` — both replacements are
single-character, so a character map is equivalent. -/
def stripCommaPeriod (s : List Char) : List Char :=
  s.map (fun c => if c = ',' ∨ c = '.' then ' ' else c)

/-- Helper for `str.split()` with no separator: split on whitespace runs,
discarding empty pieces.  `acc` holds the current word reversed. -/
def splitWsAux : List Char → List Char → List (List Char)
  | [], acc => if acc.isEmpty then [] else [acc.reverse]
  | c :: cs, acc =>
    if c.isWhitespace then
      if acc.isEmpty then splitWsAux cs [] else acc.reverse :: splitWsAux cs []
    else splitWsAux cs (c :: acc)

/-- Python `str.split()` (no argument). -/
def splitWs (s : List Char) : List (List Char) := splitWsAux s []

/-- The fixed stop-word set `common_words` of `extract_tags_from_text`. -/
def common_words : List String :=
  ["the", "a", "an", "and", "or", "but", "in", "on", "at", "to", "for",
   "of", "with", "by", "is", "are", "was", "were"]

/-- Deduplication keeping the first occurrence of each element; models
`list(set(tags))`.  CPython's set iteration order is unspecified, so any
fixed order is a determinization; every property proved below about the
result is insensitive to that choice. -/
def dedupAux {α : Type} [DecidableEq α] : List α → List α → List α
  | [], _ => []
  | x :: xs, seen =>
    if x ∈ seen then dedupAux xs seen else x :: dedupAux xs (x :: seen)

def pyDedup {α : Type} [DecidableEq α] (l : List α) : List α := dedupAux l []

/-- `extract_tags_from_text` (main.py 690-696):
`words = text.lower().replace(",", " ").replace(".", " ").split()`;
`tags = [w for w in words if len(w) > 3 and w not in common_words]`;
`return list(set(tags))[:10]`. -/
def extract_tags_from_text (text : String) : List String :=
  let words := (splitWs (stripCommaPeriod (pyLower text.data))).map String.mk
  let tags := words.filter (fun w => decide (3 < w.length ∧ w ∉ common_words))
  (pyDedup tags).take 10

example : extract_tags_from_text "A cat and a dog are playing." = ["playing"] := by decide

/-! ## Color extraction (`extract_colors` / `rgb_to_hex`, main.py 699-740) -/

/-- Channel quantization `(v // 32) * 32`. -/
def quantize (n : Nat) : Nat := n / 32 * 32

/-- One lowercase hex digit, as produced by Python's `"{:x}".format`. -/
def hexDigit (n : Nat) : Char :=
  if n < 10 then Char.ofNat (48 + n) else Char.ofNat (87 + n)

/-- Two lowercase hex digits for a channel value `< 256` (`"{:02x}"`). -/
def hex2 (n : Nat) : List Char := [hexDigit (n / 16), hexDigit (n % 16)]

/-- `rgb_to_hex` (main.py 738-740): `f"#{r:02x}{g:02x}{b:02x}"`. -/
def rgb_to_hex (rgb : Nat × Nat × Nat) : String :=
  String.mk ('#' :: (hex2 rgb.1 ++ hex2 rgb.2.1 ++ hex2 rgb.2.2))

/-- Increment the count of key `k` in an insertion-ordered tally, appending
it with count 1 when absent; models `color_groups[key] = color_groups.get(key, 0) + 1`
on a Python (insertion-ordered) dict. -/
def bump {α : Type} [DecidableEq α] (k : α) : List (α × Nat) → List (α × Nat)
  | [] => [(k, 1)]
  | (k', n) :: rest => if k' = k then (k', n + 1) :: rest else (k', n) :: bump k rest

/-- Per-pixel quantization `r, g, b = (r//32)*32, (g//32)*32, (b//32)*32`. -/
def quantize3 (p : Nat × Nat × Nat) : Nat × Nat × Nat :=
  (quantize p.1, quantize p.2.1, quantize p.2.2)

/-- Frequency tally of the quantized pixels, in first-encounter order. -/
def tally (pixels : List (Nat × Nat × Nat)) : List ((Nat × Nat × Nat) × Nat) :=
  pixels.foldl (fun acc p => bump (quantize3 p) acc) []

/-- Stable insertion of `x` into a weight-descending list: `x` goes after
every earlier element of weight `≥ x`, matching Python's stable
`sorted(key=count, reverse=True)`. -/
def insertDesc {α β : Type} [LinearOrder β] (x : α × β) :
    List (α × β) → List (α × β)
  | [] => [x]
  | y :: ys => if x.2 ≤ y.2 then y :: insertDesc x ys else x :: y :: ys

/-- Stable descending sort by the second component (processes the input left
to right, so ties keep insertion order). -/
def sortDesc {α β : Type} [LinearOrder β] (l : List (α × β)) : List (α × β) :=
  l.foldl (fun acc x => insertDesc x acc) []

/-- `extract_colors` (main.py 699-735).  The download / decode / resize of
the image at the URL is abstracted into the argument: `none` models any
failure inside the `try` block (download or decode error), `some pixels`
models the RGB pixel list of the successfully downloaded 150x150 image.
The body mirrors the source: quantize, tally, stable-sort by frequency
descending, take the top 3, pad with `"#808080"` up to 3, and on failure
return the fixed fallback triple. -/
def extract_colors (pixels : Option (List (Nat × Nat × Nat))) : List String :=
  match pixels with
  | none => ["#000000", "#FFFFFF", "#808080"]
  | some px =>
    let sorted := sortDesc (tally px)
    let top := (sorted.take 3).map (fun c => rgb_to_hex c.1)
    (top ++ List.replicate (3 - top.length) "#808080").take 3

example : extract_colors (some [(224, 0, 0)]) = ["#e00000", "#808080", "#808080"] := by decide
example : extract_colors none = ["#000000", "#FFFFFF", "#808080"] := by decide

/-! ## Annotation results, adapters, cache and the orchestrator
(`process_image_with_ai`, main.py 77-124) -/

/-- The result dict `{tags, description, colors}` produced by every
processing path. -/
structure AnnotationResult where
  tags : List String
  description : String
  colors : List String
deriving DecidableEq

/-- The fixed generic padding tags `["image","photo","picture","visual","graphic"]`
used when a caption yields fewer than 5 tags (main.py 215, 281, 440). -/
def generic_pad_tags : List String := ["image", "photo", "picture", "visual", "graphic"]

/-- The result dict built on every adapter success path from the caption and
the extracted colors (main.py 214-218, 280-284, 439-443):
`tags[:10] if len(tags) >= 5 else tags + [generic...][:5-len(tags)]`,
`caption[:200] if len(caption) > 200 else caption`, `colors[:3]`. -/
def caption_result (caption : String) (colors : List String) : AnnotationResult :=
  let tags := extract_tags_from_text caption
  { tags := if 5 ≤ tags.length then tags.take 10
            else tags ++ generic_pad_tags.take (5 - tags.length)
  , description := if 200 < caption.length then String.mk (caption.data.take 200) else caption
  , colors := colors.take 3 }

/-- `process_with_mock` (main.py 674-687): deterministic fixed output. -/
def process_with_mock (_image_url : String) : AnnotationResult :=
  { tags := ["nature", "landscape", "outdoor", "scenic", "beautiful", "photography"]
  , description := "A beautiful image with natural scenery and vibrant colors."
  , colors := ["#4A90E2", "#50C878", "#FFD700"] }

/-- The degraded result returned by `process_image_with_ai`'s `except`
handler (main.py 120-124). -/
def errorFallbackResult : AnnotationResult :=
  { tags := ["image", "photo", "picture"]
  , description := "Image processing encountered an error. Please try again later."
  , colors := ["#000000", "#FFFFFF", "#808080"] }

/-- The degraded result built inside `process_with_huggingface`'s own
exception handler (main.py 450-456); its colors come from `extract_colors`. -/
def hf_fallback (colors : List String) : AnnotationResult :=
  { tags := ["image", "photo", "picture", "visual"]
  , description := "Image uploaded. AI analysis encountered an error."
  , colors := colors.take 3 }

/-- Python `str.strip()`. -/
def pyStrip (s : List Char) : List Char :=
  ((s.dropWhile Char.isWhitespace).reverse.dropWhile Char.isWhitespace).reverse

/-- `process_with_huggingface` (main.py 357-456, reachable part).  The image
download is abstracted to `pixels` (`none` = download failure, which the
source re-raises outward, line 381); the local BLIP captioning run is
abstracted to `captioning` (`Except.error` = any model/thread error).  An
empty or too-short caption raises inside the same `try` (line 430-431) and
is therefore also absorbed into the internal fallback, which still runs
`extract_colors` (line 451). -/
def process_with_huggingface (pixels : Option (List (Nat × Nat × Nat)))
    (captioning : Except String String) : Except String AnnotationResult :=
  match pixels with
  | none => Except.error "Failed to download image"
  | some px =>
    match captioning with
    | Except.error _ => Except.ok (hf_fallback (extract_colors (some px)))
    | Except.ok cap =>
      let cap : String := String.mk (pyStrip cap.data)
      if cap.length < 5 then Except.ok (hf_fallback (extract_colors (some px)))
      else Except.ok (caption_result cap (extract_colors (some px)))

/-- Configuration read at startup: `AI_SERVICE` and `AI_API_KEY`
(main.py 59-60). -/
structure AIConfig where
  service : String
  apiKey : Option String
deriving DecidableEq

/-- The behavior of each provider adapter for a given image URL:
`Except.ok` models a returned result dict, `Except.error` models the adapter
raising (e.g. `process_with_replicate`'s final `raise` after all models and
retries fail, main.py 345). -/
structure Adapters where
  replicate : String → Except String AnnotationResult
  huggingface : String → Except String AnnotationResult
  openai : String → Except String AnnotationResult
  google : String → Except String AnnotationResult

/-- The in-memory `ai_cache` dict, most recent insertion first. -/
abbrev Cache : Type := List (String × AnnotationResult)

def cacheLookup (c : Cache) (k : String) : Option AnnotationResult :=
  match c with
  | [] => none
  | (k', v) :: rest => if k' = k then some v else cacheLookup rest k

/-- One orchestrator call: the returned result, the cache afterwards, and
how many times a real provider adapter was invoked (0 or 1 here; the mock
is not a provider adapter). -/
structure AIStep where
  result : AnnotationResult
  cache : Cache
  providerCalls : Nat

/-- The provider dispatch inside the `try` of `process_image_with_ai`
(main.py 87-110): replicate without a key falls back to the mock; openai
and google without a key raise `ValueError`; an unknown service uses the
mock. -/
def dispatch (cfg : AIConfig) (ad : Adapters) (url : String) :
    Except String AnnotationResult × Nat :=
  match cfg.service, cfg.apiKey with
  | "replicate", none => (Except.ok (process_with_mock url), 0)
  | "replicate", some _ => (ad.replicate url, 1)
  | "huggingface", _ => (ad.huggingface url, 1)
  | "openai", none => (Except.error "AI_SERVICE=openai but AI_API_KEY not set in backend/.env", 0)
  | "openai", some _ => (ad.openai url, 1)
  | "google", none => (Except.error "AI_SERVICE=google but AI_API_KEY not set in backend/.env", 0)
  | "google", some _ => (ad.google url, 1)
  | _, _ => (Except.ok (process_with_mock url), 0)

/-- `process_image_with_ai` (main.py 77-124): cache lookup, dispatch,
cache the result on the non-raising path (line 113), and on any exception
return `errorFallbackResult` WITHOUT caching it (lines 115-124). -/
def process_image_with_ai (cfg : AIConfig) (ad : Adapters) (cache : Cache)
    (url : String) : AIStep :=
  match cacheLookup cache url with
  | some r => ⟨r, cache, 0⟩
  | none =>
    match dispatch cfg ad url with
    | (Except.ok r, n) => ⟨r, (url, r) :: cache, n⟩
    | (Except.error _, n) => ⟨errorFallbackResult, cache, n⟩

/-- Adapters that always raise: an unreachable provider. -/
def failingAdapters : Adapters :=
  { replicate := fun _ => Except.error "network unreachable"
  , huggingface := fun _ => Except.error "network unreachable"
  , openai := fun _ => Except.error "network unreachable"
  , google := fun _ => Except.error "network unreachable" }

/-! ## Background task and status tracking (`process_image_async`,
main.py 829-861) -/

inductive JobStatus
  | processing
  | completed
  | failed
deriving DecidableEq

/-- `process_image_async` (main.py 829-861).  The orchestration call is
total (it never raises), so the only exceptions the task can see come from
the persistence layer: `dbCompletedThrows` models the update-to-completed
call raising, `dbFailedThrows` models the update-to-failed call in the
handler raising too.  The job was set to `processing` by the submission
path; the function returns the final persisted status. -/
def process_image_async (cfg : AIConfig) (ad : Adapters) (cache : Cache)
    (url : String) (dbCompletedThrows dbFailedThrows : Bool) : JobStatus × Cache :=
  let step := process_image_with_ai cfg ad cache url
  if dbCompletedThrows then
    (if dbFailedThrows then (JobStatus.processing, step.cache)
     else (JobStatus.failed, step.cache))
  else (JobStatus.completed, step.cache)

/-! ## Rate-limit wait extraction (`process_with_replicate`, main.py 226-244)

The source computes `wait_time = 70` by default, then applies
`re.search(r'resets in.*?(?:~)?(\d+)s', error_detail, re.IGNORECASE)` and,
on a match, `wait_time = int(match.group(1)) + 15`.  The regex is embedded
as an explicit scanner with Python `re` semantics: leftmost overall match,
lazy `.*?` (which cannot cross a newline), optional `~`, a digit run, and
a case-insensitive trailing `s`. -/

/-- Case-insensitive "does `s` start with the (lowercase) pattern". -/
def ciStarts : List Char → List Char → Bool
  | [], _ => true
  | _ :: _, [] => false
  | p :: ps, c :: cs => p == c.toLower && ciStarts ps cs

/-- The literal part of the pattern: `resets in`. -/
def resetsPat : List Char := ['r', 'e', 's', 'e', 't', 's', ' ', 'i', 'n']

def digitsToNat (ds : List Char) : Nat :=
  ds.foldl (fun n c => n * 10 + (c.toNat - 48)) 0

/-- Match `(?:~)?(\d+)s` at the current position, returning the number. -/
def matchNumS (s : List Char) : Option Nat :=
  let t := match s with
           | '~' :: rest => rest
           | _ => s
  let ds := t.takeWhile Char.isDigit
  if ds.isEmpty then none
  else
    match t.dropWhile Char.isDigit with
    | c :: _ => if c.toLower = 's' then some (digitsToNat ds) else none
    | [] => none

/-- Lazy scan for `(?:~)?(\d+)s`: try each position left to right; `.*?`
does not match a newline, so the scan stops at one. -/
def scanNum : List Char → Option Nat
  | [] => none
  | c :: rest =>
    match matchNumS (c :: rest) with
    | some n => some n
    | none => if c = '\n' then none else scanNum rest

/-- `re.search`: try every start position left to right; a start matches
when the literal `resets in` matches case-insensitively and the lazy tail
finds a number. -/
def searchResets : List Char → Option Nat
  | [] => none
  | c :: rest =>
    match (if ciStarts resetsPat (c :: rest) then scanNum (List.drop 9 (c :: rest))
           else none) with
    | some n => some n
    | none => searchResets rest

/-- The computed wait in seconds (main.py 228-240): extracted value plus a
15-second buffer, or the 70-second default when nothing matches. -/
def rate_limit_wait (errorText : String) : Nat :=
  match searchResets errorText.data with
  | some n => n + 15
  | none => 70

example : rate_limit_wait "Rate limit exceeded. The limit resets in ~12s." = 27 := by decide
example : rate_limit_wait "Request was throttled." = 70 := by decide

/-- `true` when the text contains `resets in` case-insensitively. -/
def hasResetsCI : List Char → Bool
  | [] => false
  | c :: rest => ciStarts resetsPat (c :: rest) || hasResetsCI rest

/-! ## Similarity ranking (`find_similar_images`, main.py 916-964) -/

/-- The persisted tag and color sets of one image's metadata row. -/
structure ImageMeta where
  tags : Finset String
  colors : Finset String

/-- `|a ∩ b| / |a ∪ b|`, and `0` when the union is empty (main.py 939-946).
The Python floats are modelled as exact rationals; all quantities involved
(quotients of small naturals, 0.7 and 0.3) are exactly representable or
compared only through the properties proved below. -/
def jaccard (a b : Finset String) : ℚ :=
  if (a ∪ b).card = 0 then 0 else ((a ∩ b).card : ℚ) / ((a ∪ b).card : ℚ)

/-- `similarity = (tag_similarity * 0.7) + (color_similarity * 0.3)`
(main.py 949). -/
def similarity (t c : ImageMeta) : ℚ :=
  jaccard t.tags c.tags * (7 / 10) + jaccard t.colors c.colors * (3 / 10)

/-- Pair each candidate with its insertion index. -/
def withIdx {α : Type} : Nat → List α → List (Nat × α)
  | _, [] => []
  | i, x :: xs => (i, x) :: withIdx (i + 1) xs

/-- `find_similar_images` core (main.py 933-963): score every other image,
keep only `similarity > 0`, sort by similarity descending (Python's sort is
stable, which `sortDesc` reproduces by inserting later elements after equal
ones), truncate to `limit`.  Returns `(insertion index, score)` pairs. -/
def find_similar_images (current : ImageMeta) (others : List ImageMeta)
    (limit : Nat) : List (Nat × ℚ) :=
  let scored := (withIdx 0 others).map (fun p => (p.1, similarity current p.2))
  let filtered := scored.filter (fun p => decide (0 < p.2))
  (sortDesc filtered).take limit

/-! ## Route-level behavior for search and submission
(`search_images` main.py 864-874, `process_image` main.py 769-826) -/

/-- The guard and outcome structure of the `/api/search` handler: a missing
or empty `user_id` raises `HTTPException(400, "user_id required")` before
any work; a storage error inside the `try` becomes a 500; otherwise the
rows are returned.  Row content is plumbing and abstracted to ids. -/
def search_images (user_id : Option String) (dbResult : Except String (List Nat)) :
    Except (Nat × String) (List Nat) :=
  match user_id with
  | none => Except.error (400, "user_id required")
  | some u =>
    if u.isEmpty then Except.error (400, "user_id required")
    else
      match dbResult with
      | Except.error e => Except.error (500, e)
      | Except.ok rows => Except.ok rows

/-- The `/api/process-image` handler always answers HTTP 200: the happy
path returns `{"status": "processing"}` and the catch-all handler still
returns 200 with `{"status": "queued"}` (main.py 811-826). -/
def process_image_endpoint (innerRaises : Bool) : Nat × String :=
  if innerRaises then (200, "queued") else (200, "processing")

/-! ## Helper lemmas -/

theorem mem_dedupAux {α : Type} [DecidableEq α] :
    ∀ (l seen : List α) (x : α), x ∈ dedupAux l seen → x ∈ l ∧ x ∉ seen := by
  intro l
  induction l with
  | nil => intro seen x h; simp [dedupAux] at h
  | cons a as ih =>
    intro seen x h
    by_cases ha : a ∈ seen
    · rw [dedupAux, if_pos ha] at h
      rcases ih seen x h with ⟨h1, h2⟩
      exact ⟨List.mem_cons_of_mem _ h1, h2⟩
    · rw [dedupAux, if_neg ha] at h
      rcases List.mem_cons.mp h with rfl | h'
      · exact ⟨List.mem_cons_self _ _, ha⟩
      · rcases ih _ x h' with ⟨h1, h2⟩
        refine ⟨List.mem_cons_of_mem _ h1, fun hx => h2 (List.mem_cons_of_mem _ hx)⟩

theorem nodup_dedupAux {α : Type} [DecidableEq α] :
    ∀ (l seen : List α), (dedupAux l seen).Nodup := by
  intro l
  induction l with
  | nil => intro seen; simp [dedupAux]
  | cons a as ih =>
    intro seen
    by_cases ha : a ∈ seen
    · rw [dedupAux, if_pos ha]; exact ih seen
    · rw [dedupAux, if_neg ha]
      refine List.Nodup.cons ?_ (ih _)
      intro hmem
      exact (mem_dedupAux _ _ _ hmem).2 (List.mem_cons_self _ _)

theorem mem_pyDedup {α : Type} [DecidableEq α] {l : List α} {x : α}
    (h : x ∈ pyDedup l) : x ∈ l :=
  (mem_dedupAux l [] x h).1

theorem nodup_pyDedup {α : Type} [DecidableEq α] (l : List α) :
    (pyDedup l).Nodup :=
  nodup_dedupAux l []

/-- Every tag produced by the extractor is longer than 3 characters and not
a stop word. -/
theorem extract_tags_mem {text : String} {w : String}
    (h : w ∈ extract_tags_from_text text) : 3 < w.length ∧ w ∉ common_words := by
  unfold extract_tags_from_text at h
  have h1 := mem_pyDedup (List.mem_of_mem_take h)
  have h2 := List.of_mem_filter h1
  exact of_decide_eq_true h2

/-- The extractor's output has no duplicates and at most 10 elements. -/
theorem extract_tags_nodup_len (text : String) :
    (extract_tags_from_text text).Nodup ∧ (extract_tags_from_text text).length ≤ 10 := by
  unfold extract_tags_from_text
  constructor
  · exact (List.take_sublist _ _).nodup (nodup_pyDedup _)
  · exact List.length_take_le _ _

theorem cacheLookup_mem {c : Cache} {k : String} {v : AnnotationResult}
    (h : cacheLookup c k = some v) : (k, v) ∈ c := by
  induction c with
  | nil => simp [cacheLookup] at h
  | cons p rest ih =>
    rcases p with ⟨k', v'⟩
    by_cases hk : k' = k
    · rw [cacheLookup, if_pos hk] at h
      subst hk
      cases h
      exact List.mem_cons_self _ _
    · rw [cacheLookup, if_neg hk] at h
      exact List.mem_cons_of_mem _ (ih h)

/-- `sortDesc` and its insertion preserve membership exactly. -/
theorem mem_insertDesc {α β : Type} [LinearOrder β] {x z : α × β} :
    ∀ {l : List (α × β)}, z ∈ insertDesc x l ↔ z = x ∨ z ∈ l := by
  intro l
  induction l with
  | nil => simp [insertDesc]
  | cons y ys ih =>
    by_cases h : x.2 ≤ y.2
    · rw [insertDesc, if_pos h]
      simp only [List.mem_cons, ih]
      tauto
    · rw [insertDesc, if_neg h]
      simp only [List.mem_cons]

theorem mem_sortDescAux {α β : Type} [LinearOrder β] :
    ∀ (l acc : List (α × β)) (z : α × β),
      z ∈ l.foldl (fun a x => insertDesc x a) acc ↔ z ∈ acc ∨ z ∈ l := by
  intro l
  induction l with
  | nil => intro acc z; simp
  | cons x xs ih =>
    intro acc z
    rw [List.foldl_cons, ih, mem_insertDesc]
    simp only [List.mem_cons]
    tauto

theorem mem_sortDesc {α β : Type} [LinearOrder β] {l : List (α × β)} {z : α × β} :
    z ∈ sortDesc l ↔ z ∈ l := by
  unfold sortDesc
  rw [mem_sortDescAux]
  simp

theorem insertDesc_length {α β : Type} [LinearOrder β] (x : α × β) :
    ∀ (l : List (α × β)), (insertDesc x l).length = l.length + 1 := by
  intro l
  induction l with
  | nil => rfl
  | cons y ys ih =>
    by_cases h : x.2 ≤ y.2
    · rw [insertDesc, if_pos h]; simp [ih]
    · rw [insertDesc, if_neg h]; simp

theorem sortDescAux_length {α β : Type} [LinearOrder β] :
    ∀ (l acc : List (α × β)),
      (l.foldl (fun a x => insertDesc x a) acc).length = acc.length + l.length := by
  intro l
  induction l with
  | nil => intro acc; simp
  | cons x xs ih =>
    intro acc
    rw [List.foldl_cons, ih, insertDesc_length]
    simp only [List.length_cons]
    omega

theorem sortDesc_length {α β : Type} [LinearOrder β] (l : List (α × β)) :
    (sortDesc l).length = l.length := by
  unfold sortDesc
  rw [sortDescAux_length]
  simp

/-- `extract_colors` always returns exactly 3 strings. -/
theorem extract_colors_length : ∀ px, (extract_colors px).length = 3 := by
  intro px
  cases px with
  | none => rfl
  | some l =>
    unfold extract_colors
    simp only [List.length_take, List.length_append, List.length_replicate, List.length_map]
    have h : ((sortDesc (tally l)).take 3).length ≤ 3 := List.length_take_le _ _
    omega

/-! ## Hex-format predicates and lemmas (for the Color Extractor claims) -/

/-- A character in the class `[0-9a-f]`. -/
def isLowerHexDigit (c : Char) : Bool := c.isDigit || ('a' ≤ c && c ≤ 'f')

/-- A character in the class `[0-9a-fA-F]`. -/
def isHexDigitCI (c : Char) : Bool :=
  c.isDigit || ('a' ≤ c && c ≤ 'f') || ('A' ≤ c && c ≤ 'F')

/-- The string matches `#[0-9a-f]{6}` exactly. -/
def isLowerHexColor (s : String) : Bool :=
  s.data.length == 7 && s.data.take 1 == ['#'] && (s.data.drop 1).all isLowerHexDigit

/-- The string matches `#[0-9a-fA-F]{6}` exactly. -/
def isHexColor (s : String) : Bool :=
  s.data.length == 7 && s.data.take 1 == ['#'] && (s.data.drop 1).all isHexDigitCI

theorem lowerHexDigit_ci {c : Char} (h : isLowerHexDigit c = true) :
    isHexDigitCI c = true := by
  unfold isLowerHexDigit at h
  unfold isHexDigitCI
  rcases Bool.or_eq_true_iff.mp h with h' | h' <;> simp [h']

theorem lowerHexColor_ci {s : String} (h : isLowerHexColor s = true) :
    isHexColor s = true := by
  unfold isLowerHexColor at h
  unfold isHexColor
  simp only [Bool.and_eq_true, List.all_eq_true] at h ⊢
  exact ⟨h.1, fun c hc => lowerHexDigit_ci (h.2 c hc)⟩

theorem hexDigit_lower {n : Nat} (h : n < 16) : isLowerHexDigit (hexDigit n) = true := by
  interval_cases n <;> decide

theorem hex2_lower {n : Nat} (hn : n < 256) : (hex2 n).all isLowerHexDigit = true := by
  have h1 : n / 16 < 16 := Nat.div_lt_of_lt_mul (by omega)
  have h2 : n % 16 < 16 := Nat.mod_lt _ (by omega)
  simp [hex2, hexDigit_lower h1, hexDigit_lower h2]

theorem rgb_to_hex_lower {a b c : Nat} (ha : a < 256) (hb : b < 256) (hc : c < 256) :
    isLowerHexColor (rgb_to_hex (a, b, c)) = true := by
  unfold isLowerHexColor rgb_to_hex
  simp only [Bool.and_eq_true, beq_iff_eq]
  refine ⟨⟨?_, ?_⟩, ?_⟩
  · simp [hex2]
  · simp
  · simp only [List.drop_succ_cons, List.drop_zero, List.all_append, Bool.and_eq_true]
    exact ⟨⟨hex2_lower ha, hex2_lower hb⟩, hex2_lower hc⟩

theorem mem_bump {α : Type} [DecidableEq α] {k : α} :
    ∀ {l : List (α × Nat)} {z : α × Nat}, z ∈ bump k l → z.1 = k ∨ z ∈ l := by
  intro l
  induction l with
  | nil =>
    intro z h
    simp [bump] at h
    left
    rw [h]
  | cons p rest ih =>
    intro z h
    rcases p with ⟨k', n⟩
    by_cases hk : k' = k
    · rw [bump, if_pos hk] at h
      rcases List.mem_cons.mp h with rfl | h'
      · left; exact hk
      · right; exact List.mem_cons_of_mem _ h'
    · rw [bump, if_neg hk] at h
      rcases List.mem_cons.mp h with rfl | h'
      · right; exact List.mem_cons_self _ _
      · rcases ih h' with h'' | h''
        · left; exact h''
        · right; exact List.mem_cons_of_mem _ h''

theorem mem_tallyAux :
    ∀ (px : List (Nat × Nat × Nat)) (acc : List ((Nat × Nat × Nat) × Nat))
      (z : (Nat × Nat × Nat) × Nat),
      z ∈ px.foldl (fun a q => bump (quantize3 q) a) acc →
      z ∈ acc ∨ ∃ q ∈ px, z.1 = quantize3 q := by
  intro px
  induction px with
  | nil => intro acc z h; exact Or.inl h
  | cons q qs ih =>
    intro acc z h
    rw [List.foldl_cons] at h
    rcases ih _ z h with h' | h'
    · rcases mem_bump h' with h'' | h''
      · exact Or.inr ⟨q, List.mem_cons_self _ _, h''⟩
      · exact Or.inl h''
    · rcases h' with ⟨q', hq', hz⟩
      exact Or.inr ⟨q', List.mem_cons_of_mem _ hq', hz⟩

/-- Every key in the tally is the quantization of some input pixel. -/
theorem mem_tally {px : List (Nat × Nat × Nat)} {z : (Nat × Nat × Nat) × Nat}
    (h : z ∈ tally px) : ∃ q ∈ px, z.1 = quantize3 q := by
  rcases mem_tallyAux px [] z h with h' | h'
  · simp at h'
  · exact h'

theorem quantize_lt {n : Nat} (h : n < 256) : quantize n < 256 :=
  Nat.lt_of_le_of_lt (Nat.div_mul_le_self n 32) h

/-! ## Ordering lemmas for the similarity ranker -/

/-- "`a` is ranked strictly before `b`": higher score, or equal scores with
`a` inserted earlier.  Since candidate indices are distinct, this is a
strict total order on the scored list, so it pins down the output of any
stable descending sort uniquely. -/
def rankBefore (a b : Nat × ℚ) : Prop := b.2 < a.2 ∨ (a.2 = b.2 ∧ a.1 < b.1)

theorem insertDesc_pairwise {x : Nat × ℚ} :
    ∀ {l : List (Nat × ℚ)}, l.Pairwise rankBefore → (∀ z ∈ l, z.1 < x.1) →
      (insertDesc x l).Pairwise rankBefore := by
  intro l
  induction l with
  | nil => intro _ _; simp [insertDesc]
  | cons y ys ih =>
    intro hp hfresh
    rcases List.pairwise_cons.mp hp with ⟨hy, hys⟩
    by_cases hle : x.2 ≤ y.2
    · rw [insertDesc, if_pos hle]
      refine List.pairwise_cons.mpr ⟨?_, ih hys (fun z hz => hfresh z (List.mem_cons_of_mem _ hz))⟩
      intro z hz
      rcases mem_insertDesc.mp hz with rfl | hz'
      · rcases lt_or_eq_of_le hle with h' | h'
        · exact Or.inl h'
        · exact Or.inr ⟨h'.symm, hfresh y (List.mem_cons_self _ _)⟩
      · exact hy z hz'
    · rw [insertDesc, if_neg hle]
      push_neg at hle
      refine List.pairwise_cons.mpr ⟨?_, hp⟩
      intro z hz
      rcases List.mem_cons.mp hz with rfl | hz'
      · exact Or.inl hle
      · refine Or.inl (lt_of_le_of_lt ?_ hle)
        rcases hy z hz' with h' | h'
        · exact le_of_lt h'
        · exact le_of_eq h'.1.symm

theorem sortDescAux_pairwise :
    ∀ (l acc : List (Nat × ℚ)),
      acc.Pairwise rankBefore →
      (∀ z ∈ acc, ∀ w ∈ l, z.1 < w.1) →
      l.Pairwise (fun a b => a.1 < b.1) →
      (l.foldl (fun a x => insertDesc x a) acc).Pairwise rankBefore := by
  intro l
  induction l with
  | nil => intro acc hacc _ _; exact hacc
  | cons x xs ih =>
    intro acc hacc hfresh hl
    rcases List.pairwise_cons.mp hl with ⟨hx, hxs⟩
    rw [List.foldl_cons]
    refine ih _ ?_ ?_ hxs
    · exact insertDesc_pairwise hacc (fun z hz => hfresh z hz x (List.mem_cons_self _ _))
    · intro z hz w hw
      rcases mem_insertDesc.mp hz with rfl | hz'
      · exact hx w hw
      · exact hfresh z hz' w (List.mem_cons_of_mem _ hw)

theorem sortDesc_pairwise {l : List (Nat × ℚ)}
    (h : l.Pairwise (fun a b => a.1 < b.1)) : (sortDesc l).Pairwise rankBefore := by
  unfold sortDesc
  exact sortDescAux_pairwise l [] (by simp) (by simp) h

/-- Every element of `withIdx n l` has index at least `n`. -/
theorem withIdx_ge {α : Type} :
    ∀ (n : Nat) (l : List α) (z : Nat × α), z ∈ withIdx n l → n ≤ z.1 := by
  intro n l
  induction l generalizing n with
  | nil => intro z h; simp [withIdx] at h
  | cons x xs ih =>
    intro z h
    rw [withIdx] at h
    rcases List.mem_cons.mp h with rfl | h'
    · exact Nat.le_refl _
    · exact Nat.le_of_succ_le (ih (n + 1) z h')

/-- The indices produced by `withIdx` are strictly increasing. -/
theorem withIdx_pairwise {α : Type} :
    ∀ (n : Nat) (l : List α),
      (withIdx n l).Pairwise (fun a b => a.1 < b.1) := by
  intro n l
  induction l generalizing n with
  | nil => simp [withIdx]
  | cons x xs ih =>
    rw [withIdx]
    refine List.pairwise_cons.mpr ⟨?_, ih (n + 1)⟩
    intro z hz
    exact Nat.lt_of_succ_le (withIdx_ge (n + 1) xs z hz)

/-- `withIdx` records list positions: an element `(i, a)` of `withIdx n l`
satisfies `l[i - n]? = some a`. -/
theorem withIdx_getElem {α : Type} :
    ∀ (n : Nat) (l : List α) (z : Nat × α), z ∈ withIdx n l →
      n ≤ z.1 ∧ l[z.1 - n]? = some z.2 := by
  intro n l
  induction l generalizing n with
  | nil => intro z h; simp [withIdx] at h
  | cons x xs ih =>
    intro z h
    rw [withIdx] at h
    rcases List.mem_cons.mp h with rfl | h'
    · simp
    · rcases ih (n + 1) z h' with ⟨h1, h2⟩
      refine ⟨Nat.le_of_succ_le h1, ?_⟩
      have hz : z.1 - n = (z.1 - (n + 1)) + 1 := by omega
      rw [hz]
      simpa using h2

/-! ## No-match lemma for the rate-limit regex -/

theorem searchResets_none {s : List Char} (h : hasResetsCI s = false) :
    searchResets s = none := by
  induction s with
  | nil => rfl
  | cons c rest ih =>
    rw [hasResetsCI, Bool.or_eq_false_iff] at h
    rw [searchResets, h.1]
    exact ih h.2

/-! ## Claim C3 — Text Tag Extractor on "A cat and a dog are playing." -/

/-- C3 counterexample: on `"A cat and a dog are playing."` the extractor
returns exactly `["playing"]`; contrary to the claim, `cat` and `dog` are
NOT included — the filter keeps only tokens of length strictly greater
than 3, and both have length exactly 3. -/
theorem C3_counterexample :
    extract_tags_from_text "A cat and a dog are playing." = ["playing"]
    ∧ "cat" ∉ extract_tags_from_text "A cat and a dog are playing."
    ∧ "dog" ∉ extract_tags_from_text "A cat and a dog are playing." := by
  decide

/-- C3 amended: on `"A cat and a dog are playing."` the extractor returns a
tag set that excludes `a`, `and`, `are` AND ALSO `cat` and `dog` (tokens of
at most 3 characters are dropped, so `cat`/`dog` never appear), and
includes `playing`; in general every produced tag is longer than 3
characters and not a stop word, and the output is deduplicated and capped
at 10. -/
theorem C3_amended :
    (extract_tags_from_text "A cat and a dog are playing." = ["playing"]
      ∧ "playing" ∈ extract_tags_from_text "A cat and a dog are playing."
      ∧ "a" ∉ extract_tags_from_text "A cat and a dog are playing."
      ∧ "and" ∉ extract_tags_from_text "A cat and a dog are playing."
      ∧ "are" ∉ extract_tags_from_text "A cat and a dog are playing.")
    ∧ (∀ text w : String, w ∈ extract_tags_from_text text →
        3 < w.length ∧ w ∉ common_words)
    ∧ (∀ text : String, (extract_tags_from_text text).Nodup
        ∧ (extract_tags_from_text text).length ≤ 10) :=
  ⟨by decide, fun _ _ h => extract_tags_mem h, fun text => extract_tags_nodup_len text⟩

/-- C3 witness: the amended theorem applied to the concrete sentence and
the tag it produces. -/
theorem C3_witness :
    3 < "playing".length ∧ "playing" ∉ common_words :=
  C3_amended.2.1 "A cat and a dog are playing." "playing" (by decide)

/-! ## Claim C4 — Color Extractor output shape -/

/-- C4 counterexample: on a failed download the extractor returns the fixed
triple, whose second element `"#FFFFFF"` does NOT match the (case-sensitive)
pattern `#[0-9a-f]{6}` stated by the claim. -/
theorem C4_counterexample :
    extract_colors none = ["#000000", "#FFFFFF", "#808080"]
    ∧ isLowerHexColor "#FFFFFF" = false
    ∧ ¬ (∀ s ∈ extract_colors none, isLowerHexColor s = true) := by
  decide

/-- C4 amended: the extractor never raises (it is total) and always returns
exactly 3 strings, each matching `#[0-9a-fA-F]{6}`; strings produced on the
success path are lowercase `#[0-9a-f]{6}` (given 8-bit channels); on any
failure it returns the fixed triple `#000000, #FFFFFF, #808080` (whose
second entry is uppercase); with fewer than 3 distinct quantization buckets
the top colors are padded with `#808080` to exactly 3. -/
theorem C4_amended :
    (∀ px, (extract_colors px).length = 3)
    ∧ extract_colors none = ["#000000", "#FFFFFF", "#808080"]
    ∧ (∀ s ∈ extract_colors none, isHexColor s = true)
    ∧ (∀ px : List (Nat × Nat × Nat),
        (∀ p ∈ px, p.1 < 256 ∧ p.2.1 < 256 ∧ p.2.2 < 256) →
        ∀ s ∈ extract_colors (some px),
          isLowerHexColor s = true ∧ isHexColor s = true)
    ∧ (∀ px : List (Nat × Nat × Nat), (tally px).length < 3 →
        extract_colors (some px)
          = ((sortDesc (tally px)).take 3).map (fun c => rgb_to_hex c.1)
            ++ List.replicate (3 - (tally px).length) "#808080") := by
  refine ⟨extract_colors_length, by decide, by decide, ?_, ?_⟩
  · intro px hpx s hs
    have hexpand : extract_colors (some px)
        = (((sortDesc (tally px)).take 3).map (fun c => rgb_to_hex c.1)
            ++ List.replicate
                (3 - (((sortDesc (tally px)).take 3).map (fun c => rgb_to_hex c.1)).length)
                "#808080").take 3 := rfl
    rw [hexpand] at hs
    have hmem := List.mem_of_mem_take hs
    suffices h : isLowerHexColor s = true from ⟨h, lowerHexColor_ci h⟩
    rcases List.mem_append.mp hmem with hm | hm
    · rcases List.mem_map.mp hm with ⟨c, hc, rfl⟩
      have hc1 := mem_sortDesc.mp (List.mem_of_mem_take hc)
      rcases mem_tally hc1 with ⟨q, hq, hkey⟩
      rcases hpx q hq with ⟨h1, h2, h3⟩
      have : c.1 = (quantize q.1, quantize q.2.1, quantize q.2.2) := hkey
      rw [this]
      exact rgb_to_hex_lower (quantize_lt h1) (quantize_lt h2) (quantize_lt h3)
    · have : s = "#808080" := List.eq_of_mem_replicate hm
      rw [this]
      decide
  · intro px h3
    have hexpand : extract_colors (some px)
        = (((sortDesc (tally px)).take 3).map (fun c => rgb_to_hex c.1)
            ++ List.replicate
                (3 - (((sortDesc (tally px)).take 3).map (fun c => rgb_to_hex c.1)).length)
                "#808080").take 3 := rfl
    have hlen : (((sortDesc (tally px)).take 3).map (fun c => rgb_to_hex c.1)).length
        = (tally px).length := by
      simp only [List.length_map, List.length_take, sortDesc_length]
      omega
    rw [hexpand, hlen, List.take_of_length_le]
    simp only [List.length_append, List.length_replicate, hlen]
    omega

/-- C4 witness: the amended theorem applied to the one-pixel image
`[(224, 0, 0)]` and the color it produces. -/
theorem C4_witness :
    isLowerHexColor "#e00000" = true ∧ isHexColor "#e00000" = true :=
  C4_amended.2.2.2.1 [(224, 0, 0)] (by decide) "#e00000" (by decide)

/-! ## Claim C9 — rate-limit wait extraction -/

/-- C9: the computed wait is the extracted `resets in Ns` integer plus a
15-second buffer, 70 seconds when nothing matches; concretely, text ending
`resets in ~12s` gives 27 and unmatched text gives 70; any text that does
not contain `resets in` (case-insensitively) gives exactly 70. -/
theorem C9_theorem :
    rate_limit_wait "Rate limit exceeded. The limit resets in ~12s." = 27
    ∧ rate_limit_wait "Request was throttled, monthly quota reached." = 70
    ∧ (∀ (s : String) (n : Nat), searchResets s.data = some n → rate_limit_wait s = n + 15)
    ∧ (∀ s : String, hasResetsCI s.data = false → rate_limit_wait s = 70) := by
  refine ⟨by decide, by decide, ?_, ?_⟩
  · intro s n h
    unfold rate_limit_wait
    rw [h]
  · intro s h
    unfold rate_limit_wait
    rw [searchResets_none h]

/-- C9 witness: the theorem applied to a concrete unmatched error text. -/
theorem C9_witness :
    rate_limit_wait "HTTP 429: too many requests" = 70 :=
  C9_theorem.2.2.2 "HTTP 429: too many requests" (by decide)

/-! ## Claim C10 — search requires user_id; submission always succeeds -/

/-- C10: a search call without a `user_id` fails with HTTP 400
`"user_id required"`, while the submission endpoint answers HTTP 200 on
every path, including the internal-error path. -/
theorem C10_theorem :
    (∀ db, search_images none db = Except.error (400, "user_id required"))
    ∧ (∀ db, search_images (some "") db = Except.error (400, "user_id required"))
    ∧ (∀ raised, (process_image_endpoint raised).1 = 200) := by
  refine ⟨fun db => rfl, fun db => rfl, fun raised => ?_⟩
  cases raised <;> rfl

/-! ## Reduction lemmas for the orchestrator -/

theorem orchestrator_hit {cfg : AIConfig} {ad : Adapters} {cache : Cache}
    {url : String} {r : AnnotationResult} (h : cacheLookup cache url = some r) :
    process_image_with_ai cfg ad cache url = ⟨r, cache, 0⟩ := by
  unfold process_image_with_ai
  rw [h]

theorem orchestrator_miss {cfg : AIConfig} {ad : Adapters} {cache : Cache}
    {url : String} (h : cacheLookup cache url = none) :
    process_image_with_ai cfg ad cache url =
      match dispatch cfg ad url with
      | (Except.ok r, n) => ⟨r, (url, r) :: cache, n⟩
      | (Except.error _, n) => ⟨errorFallbackResult, cache, n⟩ := by
  unfold process_image_with_ai
  rw [h]

theorem dispatch_replicate_key {k : String} {ad : Adapters} {url : String} :
    dispatch ⟨"replicate", some k⟩ ad url = (ad.replicate url, 1) := rfl

theorem dispatch_replicate_nokey {ad : Adapters} {url : String} :
    dispatch ⟨"replicate", none⟩ ad url = (Except.ok (process_with_mock url), 0) := rfl

theorem dispatch_openai_nokey {ad : Adapters} {url : String} :
    dispatch ⟨"openai", none⟩ ad url
      = (Except.error "AI_SERVICE=openai but AI_API_KEY not set in backend/.env", 0) := rfl

theorem dispatch_google_nokey {ad : Adapters} {url : String} :
    dispatch ⟨"google", none⟩ ad url
      = (Except.error "AI_SERVICE=google but AI_API_KEY not set in backend/.env", 0) := rfl

theorem cacheLookup_insert_self (cache : Cache) (url : String) (r : AnnotationResult) :
    cacheLookup ((url, r) :: cache) url = some r := by
  rw [cacheLookup, if_pos rfl]

/-! ## Claim C1 — every result cached, provider invoked at most once -/

/-- C1 counterexample: with service `replicate`, a configured key and an
unreachable (always-raising) provider, the first `process_image_with_ai`
call leaves the cache empty (the degraded result is NOT stored, main.py
115-124 returns without writing `ai_cache`), so a second sequential call
misses the cache and invokes the provider adapter again: 2 invocations,
not at most 1. -/
theorem C1_counterexample :
    (process_image_with_ai ⟨"replicate", some "token"⟩ failingAdapters [] "http://img/1.png").cache = []
    ∧ cacheLookup
        (process_image_with_ai ⟨"replicate", some "token"⟩ failingAdapters [] "http://img/1.png").cache
        "http://img/1.png" = none
    ∧ (process_image_with_ai ⟨"replicate", some "token"⟩ failingAdapters [] "http://img/1.png").providerCalls
      + (process_image_with_ai ⟨"replicate", some "token"⟩ failingAdapters
          (process_image_with_ai ⟨"replicate", some "token"⟩ failingAdapters [] "http://img/1.png").cache
          "http://img/1.png").providerCalls = 2 := by
  exact ⟨rfl, rfl, rfl⟩

/-- C1 amended: only results produced without an exception are cached.  On
adapter success the result is stored under the image reference and a second
sequential call is a cache hit that invokes no adapter; on adapter failure
the degraded result is NOT cached, so each sequential call with an
unreachable provider invokes the adapter again (once per call). -/
theorem C1_amended :
    ∀ (k url : String) (ad : Adapters) (cache : Cache),
      cacheLookup cache url = none →
      ((∀ r, ad.replicate url = Except.ok r →
          (process_image_with_ai ⟨"replicate", some k⟩ ad cache url).result = r
          ∧ cacheLookup (process_image_with_ai ⟨"replicate", some k⟩ ad cache url).cache url
              = some r
          ∧ (process_image_with_ai ⟨"replicate", some k⟩ ad
              (process_image_with_ai ⟨"replicate", some k⟩ ad cache url).cache url).providerCalls
              = 0)
       ∧ (∀ e, ad.replicate url = Except.error e →
          (process_image_with_ai ⟨"replicate", some k⟩ ad cache url).cache = cache
          ∧ (process_image_with_ai ⟨"replicate", some k⟩ ad cache url).providerCalls = 1
          ∧ (process_image_with_ai ⟨"replicate", some k⟩ ad
              (process_image_with_ai ⟨"replicate", some k⟩ ad cache url).cache url).providerCalls
              = 1)) := by
  intro k url ad cache h
  constructor
  · intro r hr
    have hm := @orchestrator_miss ⟨"replicate", some k⟩ ad cache url h
    rw [dispatch_replicate_key, hr] at hm
    rw [hm]
    refine ⟨rfl, cacheLookup_insert_self cache url r, ?_⟩
    rw [orchestrator_hit (cacheLookup_insert_self cache url r)]
  · intro e he
    have hm := @orchestrator_miss ⟨"replicate", some k⟩ ad cache url h
    rw [dispatch_replicate_key, he] at hm
    rw [hm]
    refine ⟨rfl, rfl, ?_⟩
    have hm2 := @orchestrator_miss ⟨"replicate", some k⟩ ad cache url h
    rw [dispatch_replicate_key, he] at hm2
    rw [hm2]

/-- C1 witness: the amended theorem at a concrete succeeding adapter and a
concrete failing adapter. -/
theorem C1_witness :
    (process_image_with_ai ⟨"replicate", some "token"⟩ failingAdapters [] "http://img/1.png").cache
      = []
    ∧ (process_image_with_ai ⟨"replicate", some "token"⟩ failingAdapters [] "http://img/1.png").providerCalls
      = 1 := by
  have h := (C1_amended "token" "http://img/1.png" failingAdapters [] rfl).2
    "network unreachable" rfl
  exact ⟨h.1, h.2.1⟩

/-! ## Claim C2 — degraded result colors on adapter failure -/

/-- C2 counterexample: with an unreachable replicate provider the
orchestrator returns the degraded result whose colors are the FIXED triple
`#000000, #FFFFFF, #808080` (main.py 120-124) — it does not run the Color
Extractor, which on the concrete image (a single `(224,0,0)` pixel) would
have produced `#e00000, #808080, #808080`. -/
theorem C2_counterexample :
    (process_image_with_ai ⟨"replicate", some "token"⟩ failingAdapters [] "http://img/red.png").result.colors
      = ["#000000", "#FFFFFF", "#808080"]
    ∧ extract_colors (some [(224, 0, 0)]) = ["#e00000", "#808080", "#808080"]
    ∧ (process_image_with_ai ⟨"replicate", some "token"⟩ failingAdapters [] "http://img/red.png").result.colors
      ≠ extract_colors (some [(224, 0, 0)]) := by
  exact ⟨rfl, by decide, by decide⟩

/-- C2 amended: on adapter failure the orchestrator indeed does not
propagate the error, but the degraded result's colors are the fixed
constant triple `#000000, #FFFFFF, #808080` — the Color Extractor is NOT
re-run on this path.  Only the huggingface adapter's internal fallback
(main.py 450-456) still runs the Color Extractor on the image. -/
theorem C2_amended :
    ∀ (k url e : String) (ad : Adapters) (cache : Cache),
      cacheLookup cache url = none →
      ad.replicate url = Except.error e →
      ((process_image_with_ai ⟨"replicate", some k⟩ ad cache url).result = errorFallbackResult
       ∧ errorFallbackResult.colors = ["#000000", "#FFFFFF", "#808080"]
       ∧ (∀ (px : List (Nat × Nat × Nat)) (msg : String),
            process_with_huggingface (some px) (Except.error msg)
              = Except.ok (hf_fallback (extract_colors (some px)))
            ∧ (hf_fallback (extract_colors (some px))).colors = extract_colors (some px))) := by
  intro k url e ad cache h he
  have hm := @orchestrator_miss ⟨"replicate", some k⟩ ad cache url h
  rw [dispatch_replicate_key, he] at hm
  refine ⟨by rw [hm], rfl, ?_⟩
  intro px msg
  refine ⟨rfl, ?_⟩
  show (extract_colors (some px)).take 3 = extract_colors (some px)
  exact List.take_of_length_le (by rw [extract_colors_length])

/-- C2 witness: the amended theorem at the concrete unreachable provider. -/
theorem C2_witness :
    (process_image_with_ai ⟨"replicate", some "token"⟩ failingAdapters [] "http://img/red.png").result
      = errorFallbackResult :=
  (C2_amended "token" "http://img/red.png" "network unreachable" failingAdapters [] rfl rfl).1

/-! ## Claim C5 — missing credential and the mock adapter -/

/-- C5 counterexample: with service `openai` (which requires a credential)
and no API key, the orchestrator does NOT skip to the mock adapter: the
`ValueError` raised at main.py 101 is caught by the orchestrator's handler
and the degraded error-path result is returned instead, which differs from
the mock output; likewise for `google`. -/
theorem C5_counterexample :
    (process_image_with_ai ⟨"openai", none⟩ failingAdapters [] "http://img/1.png").result
      = errorFallbackResult
    ∧ (process_image_with_ai ⟨"openai", none⟩ failingAdapters [] "http://img/1.png").result
      ≠ process_with_mock "http://img/1.png"
    ∧ (process_image_with_ai ⟨"google", none⟩ failingAdapters [] "http://img/1.png").result
      ≠ process_with_mock "http://img/1.png" := by
  exact ⟨rfl, by decide, by decide⟩

/-- C5 amended: only for the `replicate` provider does a missing credential
skip directly to the mock adapter; for `openai` and `google` a missing
credential raises `ValueError` inside the `try` and yields the degraded
error-path result.  In all three cases no provider adapter is invoked. -/
theorem C5_amended :
    ∀ (url : String) (ad : Adapters) (cache : Cache),
      cacheLookup cache url = none →
      ((process_image_with_ai ⟨"replicate", none⟩ ad cache url).result = process_with_mock url
       ∧ (process_image_with_ai ⟨"replicate", none⟩ ad cache url).providerCalls = 0)
      ∧ ((process_image_with_ai ⟨"openai", none⟩ ad cache url).result = errorFallbackResult
         ∧ (process_image_with_ai ⟨"openai", none⟩ ad cache url).providerCalls = 0)
      ∧ ((process_image_with_ai ⟨"google", none⟩ ad cache url).result = errorFallbackResult
         ∧ (process_image_with_ai ⟨"google", none⟩ ad cache url).providerCalls = 0) := by
  intro url ad cache h
  have h1 := @orchestrator_miss ⟨"replicate", none⟩ ad cache url h
  rw [dispatch_replicate_nokey] at h1
  have h2 := @orchestrator_miss ⟨"openai", none⟩ ad cache url h
  rw [dispatch_openai_nokey] at h2
  have h3 := @orchestrator_miss ⟨"google", none⟩ ad cache url h
  rw [dispatch_google_nokey] at h3
  exact ⟨⟨by rw [h1], by rw [h1]⟩, ⟨by rw [h2], by rw [h2]⟩, ⟨by rw [h3], by rw [h3]⟩⟩

/-- C5 witness: the amended theorem at an empty cache. -/
theorem C5_witness :
    (process_image_with_ai ⟨"replicate", none⟩ failingAdapters [] "http://img/1.png").result
      = process_with_mock "http://img/1.png" :=
  (C5_amended "http://img/1.png" failingAdapters [] rfl).1.1

/-! ## Claim C6 — failed status only on persistence exceptions -/

/-- C6: the background task's final persisted status is `failed` exactly
when the update-to-completed call raised and the handler's update-to-failed
call succeeded; when the persistence layer does not raise, the job reaches
`completed` regardless of the provider's behavior (`process_image_with_ai`
is total, so a provider failure alone can never produce `failed`). -/
theorem C6_theorem :
    ∀ (cfg : AIConfig) (ad : Adapters) (cache : Cache) (url : String)
      (dbCompletedThrows dbFailedThrows : Bool),
      ((process_image_async cfg ad cache url dbCompletedThrows dbFailedThrows).1
          = JobStatus.failed
        ↔ dbCompletedThrows = true ∧ dbFailedThrows = false)
      ∧ (dbCompletedThrows = false →
          (process_image_async cfg ad cache url dbCompletedThrows dbFailedThrows).1
            = JobStatus.completed) := by
  intro cfg ad cache url dbC dbF
  cases dbC <;> cases dbF <;> simp [process_image_async]

/-- C6 witness: with an unreachable provider and a sound persistence layer
the job still completes. -/
theorem C6_witness :
    (process_image_async ⟨"replicate", some "token"⟩ failingAdapters [] "http://img/1.png"
        false false).1 = JobStatus.completed := by
  have h := C6_theorem ⟨"replicate", some "token"⟩ failingAdapters [] "http://img/1.png" false false
  exact h.2 rfl

/-! ## Claim C7 — the AnnotationResult data-model invariant -/

/-- Exact-case "does `s` start with `pat`". -/
def litStarts : List Char → List Char → Bool
  | [], _ => true
  | _ :: _, [] => false
  | p :: ps, c :: cs => p == c && litStarts ps cs

/-- Python `sub in s` (substring containment). -/
def containsSub (sub : List Char) : List Char → Bool
  | [] => litStarts sub []
  | c :: cs => litStarts sub (c :: cs) || containsSub sub cs

/-- Helper for Python `str.split(sep)` with a nonempty separator:
fuel-indexed left-to-right scan for non-overlapping occurrences.  `fuel`
is set to the input length, which suffices because every step consumes at
least one character. -/
def splitSubAux (sep : List Char) : Nat → List Char → List Char → List (List Char)
  | _, [], acc => [acc.reverse]
  | 0, s, acc => [acc.reverse ++ s]
  | fuel + 1, c :: cs, acc =>
    if litStarts sep (c :: cs)
    then acc.reverse :: splitSubAux sep fuel (List.drop sep.length (c :: cs)) []
    else splitSubAux sep fuel cs (c :: acc)

/-- Python `s.split(sep)` for a nonempty separator. -/
def pySplitOn (sep s : List Char) : List (List Char) :=
  splitSubAux sep s.length s []

/-- `process_with_openai`'s result construction (main.py 610-646): the
remote call is abstracted to the response text `content`.  The source uses
`tags[:10]` with NO minimum padding (can be empty) and
`content.split("description")[1] if "description" in content else "Image description"`
with NO 200-character truncation.  (When `"description" in content` the
split has at least two pieces, so the `getD` default is unreachable.) -/
def process_with_openai (content : String) (colors : List String) : AnnotationResult :=
  { tags := (extract_tags_from_text content).take 10
  , description :=
      if containsSub "description".data content.data
      then String.mk ((pySplitOn "description".data content.data).getD 1 [])
      else "Image description"
  , colors := colors.take 3 }

/-- `process_with_google`'s result construction (main.py 649-671): the
vision API call is abstracted to the returned `labels` and the optional
first text annotation.  The source uses `labels[:10]` with NO minimum
padding (can be empty) and `description[:200]`. -/
def process_with_google (labels : List String) (textAnn : Option String)
    (colors : List String) : AnnotationResult :=
  { tags := labels.take 10
  , description := String.mk ((textAnn.getD "Image detected").data.take 200)
  , colors := colors.take 3 }

/-- The part of the spec's AnnotationResult invariant that holds on EVERY
orchestrator path, including the openai and google success paths: at most
10 tags and exactly 3 colors. -/
def weakResultInv (r : AnnotationResult) : Prop :=
  r.tags.length ≤ 10 ∧ r.colors.length = 3

/-- The stronger invariant that holds on the mock, degraded-fallback,
huggingface-fallback and caption-built (replicate / huggingface success)
paths: 1-10 tags, description of at most 200 characters, exactly 3
colors. -/
def resultInv (r : AnnotationResult) : Prop :=
  1 ≤ r.tags.length ∧ r.tags.length ≤ 10 ∧ r.description.length ≤ 200
    ∧ r.colors.length = 3

theorem resultInv_weak {r : AnnotationResult} (h : resultInv r) : weakResultInv r :=
  ⟨h.2.1, h.2.2.2⟩

theorem mock_resultInv (url : String) : resultInv (process_with_mock url) := by
  show resultInv (process_with_mock "")
  exact ⟨by decide, by decide, by decide, by decide⟩

theorem errorFallback_resultInv : resultInv errorFallbackResult :=
  ⟨by decide, by decide, by decide, by decide⟩

theorem hf_fallback_resultInv (colors : List String) (h : colors.length = 3) :
    resultInv (hf_fallback colors) := by
  refine ⟨?_, ?_, ?_, ?_⟩
  · show 1 ≤ (["image", "photo", "picture", "visual"] : List String).length
    decide
  · show (["image", "photo", "picture", "visual"] : List String).length ≤ 10
    decide
  · show ("Image uploaded. AI analysis encountered an error." : String).length ≤ 200
    decide
  · show (colors.take 3).length = 3
    rw [List.length_take, h]
    simp

theorem caption_result_resultInv (caption : String) (colors : List String)
    (h : colors.length = 3) : resultInv (caption_result caption colors) := by
  have htags : (caption_result caption colors).tags
      = (if 5 ≤ (extract_tags_from_text caption).length
         then (extract_tags_from_text caption).take 10
         else extract_tags_from_text caption
              ++ generic_pad_tags.take (5 - (extract_tags_from_text caption).length)) := rfl
  have hdesc : (caption_result caption colors).description
      = (if 200 < caption.length then String.mk (caption.data.take 200) else caption) := rfl
  have hcol : (caption_result caption colors).colors = colors.take 3 := rfl
  have h10 := (extract_tags_nodup_len caption).2
  have hgen : generic_pad_tags.length = 5 := rfl
  refine ⟨?_, ?_, ?_, ?_⟩
  · rw [htags]
    by_cases h5 : 5 ≤ (extract_tags_from_text caption).length
    · rw [if_pos h5, List.length_take]
      omega
    · rw [if_neg h5, List.length_append, List.length_take, hgen]
      omega
  · rw [htags]
    by_cases h5 : 5 ≤ (extract_tags_from_text caption).length
    · rw [if_pos h5, List.length_take]
      omega
    · rw [if_neg h5, List.length_append, List.length_take, hgen]
      omega
  · rw [hdesc]
    by_cases hl : 200 < caption.length
    · rw [if_pos hl]
      show (caption.data.take 200).length ≤ 200
      rw [List.length_take]
      omega
    · rw [if_neg hl]
      omega
  · rw [hcol, List.length_take, h]
    simp

theorem openai_weakInv (content : String) (colors : List String)
    (h : colors.length = 3) : weakResultInv (process_with_openai content colors) := by
  refine ⟨?_, ?_⟩
  · show ((extract_tags_from_text content).take 10).length ≤ 10
    rw [List.length_take]
    omega
  · show (colors.take 3).length = 3
    rw [List.length_take, h]
    simp

theorem google_weakInv (labels : List String) (textAnn : Option String)
    (colors : List String) (h : colors.length = 3) :
    weakResultInv (process_with_google labels textAnn colors) := by
  refine ⟨?_, ?_⟩
  · show (labels.take 10).length ≤ 10
    rw [List.length_take]
    omega
  · show (colors.take 3).length = 3
    rw [List.length_take, h]
    simp

/-- Every successful dispatch result is the mock output or an adapter
success. -/
theorem dispatch_ok_cases {cfg : AIConfig} {ad : Adapters} {url : String}
    {r : AnnotationResult} {n : Nat} (h : dispatch cfg ad url = (Except.ok r, n)) :
    r = process_with_mock url
    ∨ ad.replicate url = Except.ok r
    ∨ ad.huggingface url = Except.ok r
    ∨ ad.openai url = Except.ok r
    ∨ ad.google url = Except.ok r := by
  unfold dispatch at h
  split at h <;>
    simp only [Prod.mk.injEq] at h <;>
    rcases h with ⟨h1, h2⟩ <;>
    first
      | exact Except.noConfusion h1
      | exact Or.inl (Except.ok.inj h1).symm
      | exact Or.inr (Or.inl h1)
      | exact Or.inr (Or.inr (Or.inl h1))
      | exact Or.inr (Or.inr (Or.inr (Or.inl h1)))
      | exact Or.inr (Or.inr (Or.inr (Or.inr h1)))

/-- Adapters reproducing the replicate success path: one image whose
caption is `"photo"` (a tag that collides with the generic padding) and one
whose caption is empty. -/
def c7Adapters : Adapters :=
  { replicate := fun u =>
      if u = "http://img/dup.png"
      then Except.ok (caption_result "photo" (extract_colors (some [(0, 0, 0)])))
      else Except.ok (caption_result "" (extract_colors (some [(0, 0, 0)])))
  , huggingface := fun _ => Except.error "unused"
  , openai := fun _ => Except.error "unused"
  , google := fun _ => Except.error "unused" }

/-- Adapters reproducing the openai and google success paths: an openai
response with no token longer than 3 characters, an openai response whose
`split("description")[1]` tail is 210 characters, and a google response
with no labels. -/
def c7aAdapters : Adapters :=
  { replicate := fun _ => Except.error "unused"
  , huggingface := fun _ => Except.error "unused"
  , openai := fun u =>
      if u = "http://img/short.png"
      then Except.ok (process_with_openai "a b c d" (extract_colors (some [(0, 0, 0)])))
      else Except.ok (process_with_openai
        (String.mk ("description".data ++ List.replicate 210 'x'))
        (extract_colors (some [(0, 0, 0)])))
  , google := fun _ =>
      Except.ok (process_with_google [] none (extract_colors (some [(0, 0, 0)]))) }

set_option maxRecDepth 4000 in
/-- C7 counterexample: the orchestrator returns results violating the
claimed invariant on several success paths: a replicate caption of
`"photo"` yields the DUPLICATED tag sequence
`["photo", "image", "photo", "picture", "visual"]`; an empty caption
yields an EMPTY description; the openai path returns an EMPTY tag list
when the response has no usable token and an UNTRUNCATED description of
210 characters when the split tail is long; the google path returns an
empty tag list when no labels come back. -/
theorem C7_counterexample :
    ((process_image_with_ai ⟨"replicate", some "token"⟩ c7Adapters [] "http://img/dup.png").result.tags
        = ["photo", "image", "photo", "picture", "visual"]
      ∧ ¬ (process_image_with_ai ⟨"replicate", some "token"⟩ c7Adapters [] "http://img/dup.png").result.tags.Nodup)
    ∧ (process_image_with_ai ⟨"replicate", some "token"⟩ c7Adapters [] "http://img/empty.png").result.description
        = ""
    ∧ (process_image_with_ai ⟨"openai", some "token"⟩ c7aAdapters [] "http://img/short.png").result.tags
        = []
    ∧ (process_image_with_ai ⟨"openai", some "token"⟩ c7aAdapters [] "http://img/long.png").result.description.length
        = 210
    ∧ (process_image_with_ai ⟨"google", some "token"⟩ c7aAdapters [] "http://img/any.png").result.tags
        = [] := by
  exact ⟨⟨by decide, by decide⟩, by decide, by decide, by decide, by decide⟩

/-- C7 amended: on every orchestrator path the result has exactly 3 colors
and at most 10 tags; the rest of the claimed invariant fails.  The tags
may contain duplicates (the generic padding of the replicate and
huggingface success paths can repeat an extracted tag), may be empty (the
openai and google paths apply `[:10]` with no minimum padding), and the
description may be empty or exceed 200 characters (the openai path returns
the raw `split("description")[1]` untruncated).  The full 1-10-tags /
at-most-200-character-description invariant does hold on the mock,
degraded-fallback, huggingface-fallback and caption-built paths, and the
weak invariant is preserved by the orchestrator for any adapters whose
successes satisfy it. -/
theorem C7_amended :
    (∀ url, resultInv (process_with_mock url))
    ∧ resultInv errorFallbackResult
    ∧ (∀ colors, colors.length = 3 → resultInv (hf_fallback colors))
    ∧ (∀ (caption : String) (colors : List String), colors.length = 3 →
        resultInv (caption_result caption colors))
    ∧ (∀ (content : String) (colors : List String), colors.length = 3 →
        weakResultInv (process_with_openai content colors))
    ∧ (∀ (labels : List String) (textAnn : Option String)
        (colors : List String), colors.length = 3 →
        weakResultInv (process_with_google labels textAnn colors))
    ∧ (∀ (cfg : AIConfig) (ad : Adapters) (cache : Cache) (url : String),
        (∀ u r, ad.replicate u = Except.ok r → weakResultInv r) →
        (∀ u r, ad.huggingface u = Except.ok r → weakResultInv r) →
        (∀ u r, ad.openai u = Except.ok r → weakResultInv r) →
        (∀ u r, ad.google u = Except.ok r → weakResultInv r) →
        (∀ p ∈ cache, weakResultInv p.2) →
        weakResultInv (process_image_with_ai cfg ad cache url).result) := by
  refine ⟨mock_resultInv, errorFallback_resultInv, hf_fallback_resultInv,
    caption_result_resultInv, openai_weakInv, google_weakInv, ?_⟩
  intro cfg ad cache url h1 h2 h3 h4 hcache
  cases hcl : cacheLookup cache url with
  | some r =>
    rw [orchestrator_hit hcl]
    exact hcache (url, r) (cacheLookup_mem hcl)
  | none =>
    rw [orchestrator_miss hcl]
    rcases hd : dispatch cfg ad url with ⟨e, n⟩
    cases e with
    | ok r =>
      show weakResultInv r
      rcases dispatch_ok_cases hd with h | h | h | h | h
      · rw [h]; exact resultInv_weak (mock_resultInv url)
      · exact h1 url r h
      · exact h2 url r h
      · exact h3 url r h
      · exact h4 url r h
    | error s =>
      show weakResultInv errorFallbackResult
      exact resultInv_weak errorFallback_resultInv

/-- C7 witness: the orchestrator-closure conjunct applied to an unreachable
provider and an empty cache. -/
theorem C7_witness :
    weakResultInv (process_image_with_ai ⟨"replicate", some "token"⟩ failingAdapters []
      "http://img/1.png").result :=
  C7_amended.2.2.2.2.2.2 ⟨"replicate", some "token"⟩ failingAdapters [] "http://img/1.png"
    (fun _ _ h => Except.noConfusion h) (fun _ _ h => Except.noConfusion h)
    (fun _ _ h => Except.noConfusion h) (fun _ _ h => Except.noConfusion h)
    (fun p hp => absurd hp (List.not_mem_nil p))

/-! ## Claim C8 — the similarity ranker -/

theorem jaccard_self {a : Finset String} (h : a.Nonempty) : jaccard a a = 1 := by
  unfold jaccard
  rw [Finset.union_self, Finset.inter_self]
  have hc : 0 < a.card := Finset.card_pos.mpr h
  rw [if_neg (by omega)]
  exact div_self (Nat.cast_ne_zero.mpr (by omega))

theorem jaccard_disjoint {a b : Finset String} (h : Disjoint a b) : jaccard a b = 0 := by
  unfold jaccard
  have hc : (a ∩ b).card = 0 :=
    Finset.card_eq_zero.mpr (Finset.disjoint_iff_inter_eq_empty.mp h)
  split
  · rfl
  · rw [hc]
    simp

/-- C8: per-candidate score `0.7·|tags∩|/|tags∪| + 0.3·|colors∩|/|colors∪|`
(quotients 0 on empty unions); identical nonempty tag and color sets score
exactly 1; disjoint tags and colors score exactly 0 and are excluded from
the output (everything ranked has score > 0 and is a genuine scored
candidate); the output is sorted descending by score with stable tie-break
by insertion order (captured by `rankBefore`, a strict order since indices
are distinct) and truncated to the requested limit. -/
theorem C8_theorem :
    (∀ t c : ImageMeta, similarity t c
        = jaccard t.tags c.tags * (7 / 10) + jaccard t.colors c.colors * (3 / 10))
    ∧ (∀ m : ImageMeta, m.tags.Nonempty → m.colors.Nonempty → similarity m m = 1)
    ∧ (∀ t c : ImageMeta, Disjoint t.tags c.tags → Disjoint t.colors c.colors →
        similarity t c = 0)
    ∧ (∀ (cur : ImageMeta) (others : List ImageMeta) (limit : Nat),
        (∀ p ∈ find_similar_images cur others limit,
          (0 : ℚ) < p.2 ∧ ∃ m, others[p.1]? = some m ∧ p.2 = similarity cur m)
        ∧ (find_similar_images cur others limit).Pairwise rankBefore
        ∧ (find_similar_images cur others limit).length ≤ limit) := by
  refine ⟨fun t c => rfl, ?_, ?_, ?_⟩
  · intro m ht hc
    unfold similarity
    rw [jaccard_self ht, jaccard_self hc]
    norm_num
  · intro t c ht hc
    unfold similarity
    rw [jaccard_disjoint ht, jaccard_disjoint hc]
    norm_num
  · intro cur others limit
    have hexpand : find_similar_images cur others limit
        = (sortDesc (((withIdx 0 others).map (fun p => (p.1, similarity cur p.2))).filter
            (fun p => decide (0 < p.2)))).take limit := rfl
    refine ⟨?_, ?_, ?_⟩
    · intro p hp
      rw [hexpand] at hp
      have hmem := mem_sortDesc.mp (List.mem_of_mem_take hp)
      have hfil := List.mem_filter.mp hmem
      refine ⟨of_decide_eq_true hfil.2, ?_⟩
      rcases List.mem_map.mp hfil.1 with ⟨q, hq, hpq⟩
      rcases withIdx_getElem 0 others q hq with ⟨_, hget⟩
      rw [Nat.sub_zero] at hget
      refine ⟨q.2, ?_, ?_⟩
      · rw [← hpq]
        exact hget
      · rw [← hpq]
    · rw [hexpand]
      refine List.Pairwise.sublist (List.take_sublist _ _) ?_
      refine sortDesc_pairwise ?_
      refine List.Pairwise.filter _ ?_
      refine (List.pairwise_map).mpr ?_
      exact List.Pairwise.imp (fun h => h) (withIdx_pairwise 0 others)
    · rw [hexpand]
      exact List.length_take_le _ _

/-- C8 witness: a candidate identical to the target scores exactly 1. -/
theorem C8_witness :
    similarity ⟨{"cat"}, {"#000000"}⟩ ⟨{"cat"}, {"#000000"}⟩ = 1 :=
  C8_theorem.2.1 ⟨{"cat"}, {"#000000"}⟩ (Finset.singleton_nonempty "cat")
    (Finset.singleton_nonempty "#000000")
